import Mathlib

/-!
Verification of the apple_hpke envelope-parsing core
(`src/apple_hpke/apple.go`) of kokukuma/identity-credential-api-demo.

Byte sequences are modelled as `List Nat` (each element a byte value).
The structured-binary codec used by the source (fxamacker/cbor with
default, canonical options) is modelled concretely for *encoding* the
session transcript (the byte-exact output matters for the hash
commitments), while envelope/plaintext *decoding*, the digest utility
and the HPKE decrypt primitive are abstract parameters where claims
quantify over them, plus a concrete SHA-256 model for the fixture
claims.
-/

namespace AppleHpke

abbrev Bytes := List Nat

/-- UTF-8 bytes of a string (all strings in this development are ASCII,
so code points coincide with UTF-8 bytes). -/
def strBytes (s : String) : Bytes := s.data.map Char.toNat

/-- Constant protocol-version tag from `apple.go`. -/
def APPLE_HANDOVER_V1 : String := "AppleIdentityPresentment_1.0"

/-- Head (initial bytes) of a CBOR data item of the given major type and
argument `n` (length/value), in the shortest (canonical/deterministic)
form used by the codec. -/
def cborHead (major n : Nat) : Bytes :=
  if n < 24 then [32 * major + n]
  else if n < 256 then [32 * major + 24, n]
  else if n < 65536 then [32 * major + 25, n / 256, n % 256]
  else if n < 4294967296 then
    [32 * major + 26, n / 16777216 % 256, n / 65536 % 256, n / 256 % 256, n % 256]
  else
    [32 * major + 27, n / 72057594037927936 % 256, n / 281474976710656 % 256,
     n / 1099511627776 % 256, n / 4294967296 % 256, n / 16777216 % 256,
     n / 65536 % 256, n / 256 % 256, n % 256]

/-- CBOR data items occurring in the session transcript. -/
inductive CborItem where
  | null
  | bytes (b : Bytes)
  | text (t : Bytes)
  | arr (items : List CborItem)

mutual

/-- Canonical (deterministic, shortest-length) CBOR encoding, as
produced by the codec's default marshalling mode. -/
def cborEncode : CborItem → Bytes
  | .null => [246]
  | .bytes b => cborHead 2 b.length ++ b
  | .text t => cborHead 3 t.length ++ t
  | .arr items => cborHead 4 items.length ++ cborEncodeList items

def cborEncodeList : List CborItem → Bytes
  | [] => []
  | x :: xs => cborEncode x ++ cborEncodeList xs

end

/-- `generateAppleSessionTranscript` from `apple.go`: builds the
`appleHandover` value `[nil, nil, [APPLE_HANDOVER_V1, nonce, merchantID,
temaID, requesterIdHash]]` and marshals it with the codec. The Go
function can only fail if marshalling fails, which cannot happen for
this shape, so the model is total. -/
def generateAppleSessionTranscript (merchantID temaID : Bytes)
    (nonce requesterIdHash : Bytes) : Bytes :=
  cborEncode (.arr [.null, .null,
    .arr [.text (strBytes APPLE_HANDOVER_V1), .bytes nonce,
          .text merchantID, .text temaID, .bytes requesterIdHash]])

/-- Follows the spec's words (§6 session-transcript wire format): the
canonical CBOR bytes of the 3-slot array
`[null, null, ["AppleIdentityPresentment_1.0", nonce, merchantId,
teamId, requesterKeyDigest]]`, with explicit null markers in the two
absent slots and the handover fields in exactly this order, written out
slot by slot. Used only to compare with the source definition. -/
def specTranscriptBytes (merchantId teamId nonce requesterKeyDigest : Bytes) : Bytes :=
  cborHead 4 3
    ++ [246]
    ++ [246]
    ++ cborHead 4 5
    ++ cborHead 3 (strBytes "AppleIdentityPresentment_1.0").length
    ++ strBytes "AppleIdentityPresentment_1.0"
    ++ cborHead 2 nonce.length ++ nonce
    ++ cborHead 3 merchantId.length ++ merchantId
    ++ cborHead 3 teamId.length ++ teamId
    ++ cborHead 2 requesterKeyDigest.length ++ requesterKeyDigest

/-! ## SHA-256

Modelled from the spec: `protocol.Digest(_, "SHA-256")` lives in the
repository's `protocol` package, whose source is not part of this
snapshot; the spec (§4.1) describes it as the deterministic 256-bit
secure hash, i.e. standard SHA-256, modelled here over `Bytes`. -/

def w32 (n : Nat) : Nat := n % 4294967296

def rotr (k x : Nat) : Nat := w32 ((x >>> k) ||| (x <<< (32 - k)))

def shaCh (x y z : Nat) : Nat := (x &&& y) ^^^ ((x ^^^ 4294967295) &&& z)

def shaMaj (x y z : Nat) : Nat := (x &&& y) ^^^ (x &&& z) ^^^ (y &&& z)

def bigSigma0 (x : Nat) : Nat := rotr 2 x ^^^ rotr 13 x ^^^ rotr 22 x

def bigSigma1 (x : Nat) : Nat := rotr 6 x ^^^ rotr 11 x ^^^ rotr 25 x

def smallSigma0 (x : Nat) : Nat := rotr 7 x ^^^ rotr 18 x ^^^ (x >>> 3)

def smallSigma1 (x : Nat) : Nat := rotr 17 x ^^^ rotr 19 x ^^^ (x >>> 10)

def shaK : List Nat :=
  [1116352408, 1899447441, 3049323471, 3921009573, 961987163, 1508970993,
   2453635748, 2870763221, 3624381080, 310598401, 607225278, 1426881987,
   1925078388, 2162078206, 2614888103, 3248222580, 3835390401, 4022224774,
   264347078, 604807628, 770255983, 1249150122, 1555081692, 1996064986,
   2554220882, 2821834349, 2952996808, 3210313671, 3336571891, 3584528711,
   113926993, 338241895, 666307205, 773529912, 1294757372, 1396182291,
   1695183700, 1986661051, 2177026350, 2456956037, 2730485921, 2820302411,
   3259730800, 3345764771, 3516065817, 3600352804, 4094571909, 275423344,
   430227734, 506948616, 659060556, 883997877, 958139571, 1322822218,
   1537002063, 1747873779, 1955562222, 2024104815, 2227730452, 2361852424,
   2428436474, 2756734187, 3204031479, 3329325298]

def shaH0 : List Nat :=
  [1779033703, 3144134277, 1013904242, 2773480762,
   1359893119, 2600822924, 528734635, 1541459225]

/-- Big-endian 32-bit words from bytes. -/
def toWords32 : Bytes → List Nat
  | b0 :: b1 :: b2 :: b3 :: rest =>
      (((b0 * 256 + b1) * 256 + b2) * 256 + b3) :: toWords32 rest
  | _ => []

/-- One message-schedule extension step. -/
def stepW (w : List Nat) : List Nat :=
  let n := w.length
  w ++ [w32 (smallSigma1 (w.getD (n - 2) 0) + w.getD (n - 7) 0 +
             smallSigma0 (w.getD (n - 15) 0) + w.getD (n - 16) 0)]

/-- Extend the 16 block words to the 64 schedule words. -/
def schedule (w : List Nat) : List Nat := Nat.iterate stepW 48 w

/-- One SHA-256 compression round on the 8-word working state. -/
def shaRound (st : List Nat) (kw : Nat × Nat) : List Nat :=
  match st with
  | [a, b, c, d, e, f, g, h] =>
    let t1 := w32 (h + bigSigma1 e + shaCh e f g + kw.1 + kw.2)
    let t2 := w32 (bigSigma0 a + shaMaj a b c)
    [w32 (t1 + t2), a, b, c, w32 (d + t1), e, f, g]
  | other => other

/-- Compress one 64-byte block into the hash state. -/
def compressBlock (h : List Nat) (block : Bytes) : List Nat :=
  let ws := schedule (toWords32 block)
  let st := (shaK.zip ws).foldl shaRound h
  (h.zip st).map fun p => w32 (p.1 + p.2)

def be8 (n : Nat) : Bytes :=
  [n / 72057594037927936 % 256, n / 281474976710656 % 256,
   n / 1099511627776 % 256, n / 4294967296 % 256,
   n / 16777216 % 256, n / 65536 % 256, n / 256 % 256, n % 256]

def be4 (n : Nat) : Bytes :=
  [n / 16777216 % 256, n / 65536 % 256, n / 256 % 256, n % 256]

/-- SHA-256 padding: 0x80, zeros to 56 mod 64, 64-bit big-endian bit length. -/
def padMessage (msg : Bytes) : Bytes :=
  msg ++ [128] ++ List.replicate ((119 - msg.length % 64) % 64) 0
      ++ be8 (8 * msg.length)

/-- Split into 64-byte blocks; the fuel (first argument) bounds the
number of blocks so the recursion is structural and reduces in the
kernel. -/
def chunksAux : Nat → Bytes → List Bytes
  | 0, _ => []
  | _, [] => []
  | fuel + 1, b :: rest => (b :: rest).take 64 :: chunksAux fuel ((b :: rest).drop 64)

def chunks64 (l : Bytes) : List Bytes := chunksAux l.length l

def sha256 (msg : Bytes) : Bytes :=
  ((chunks64 (padMessage msg)).foldl compressBlock shaH0).foldr
    (fun wrd acc => be4 wrd ++ acc) []

/-! ## Envelope data model (`apple.go`) -/

/-- `HPKEParams` struct from `apple.go`. -/
structure HPKEParams where
  mode : Nat
  pkEM : Bytes
  pkRHash : Bytes
  infoHash : Bytes
deriving DecidableEq

/-- `HPKEEnvelope` struct from `apple.go`. -/
structure HPKEEnvelope where
  algorithm : String
  params : HPKEParams
  data : Bytes
deriving DecidableEq

/-- Modelled from the spec: `mdoc.DeviceResponse` is the external
device-response claims schema (repository code outside this snapshot);
its content is opaque to this core, so it is an opaque wrapper. -/
structure DeviceResponse where
  raw : Bytes
deriving DecidableEq

/-- The anonymous wrapper struct in `ParseDeviceResponse` exposing the
single field `identity`. -/
structure Topics where
  identity : DeviceResponse
deriving DecidableEq

/-- `ecdh.PrivateKey` as the core uses it: `PublicKey().Bytes()` plus
the opaque private material handed to the decrypt primitive. -/
structure PrivateKey where
  publicKeyBytes : Bytes
  scalar : Bytes
deriving DecidableEq

/-- The external primitives `ParseDeviceResponse` delegates to:
CBOR unmarshalling of the envelope and of the plaintext wrapper
(external codec), `protocol.Digest(_, "SHA-256")`, and
`protocol.DecryptHPKE`. `Option` models fallibility. -/
structure Primitives where
  cborDecodeEnvelope : Bytes → Option HPKEEnvelope
  digest : Bytes → Bytes
  decryptHPKE : Bytes → Bytes → Bytes → PrivateKey → Option Bytes
  cborDecodeTopics : Bytes → Option Topics

/-- The error return sites of `ParseDeviceResponse`, one constructor
per `return nil, nil, fmt.Errorf(...)` site in `apple.go`. (The
`failed to create aad` site is unreachable: marshalling the fixed-shape
transcript cannot fail, so the model has no such constructor.) -/
inductive ParseError where
  | unmarshalEnvelope
  | infoHashMismatch
  | pkRHashMismatch
  | decryptHPKE
  | unmarshalPlaintext
deriving DecidableEq

/-- The spec's §7 failure taxonomy. -/
inductive ErrClass where
  | decodeError
  | bindingError
  | decryptError
deriving DecidableEq

/-- Classification of each return site under the spec's §7 taxonomy. -/
def errClass : ParseError → ErrClass
  | .unmarshalEnvelope => .decodeError
  | .infoHashMismatch => .bindingError
  | .pkRHashMismatch => .bindingError
  | .decryptHPKE => .decryptError
  | .unmarshalPlaintext => .decodeError

/-- One invocation of `protocol.DecryptHPKE` with its arguments, in the
source's argument order. -/
structure DecryptCall where
  ciphertext : Bytes
  pkEM : Bytes
  aad : Bytes
  key : PrivateKey
deriving DecidableEq

/-- The Go return triple `(*mdoc.DeviceResponse, []byte, error)`:
`nil` pointers/slices are `none`. -/
structure ParseResult where
  response : Option DeviceResponse
  transcript : Option Bytes
  err : Option ParseError
deriving DecidableEq

/-- `ParseDeviceResponse` from `apple.go`, instrumented with the list of
`protocol.DecryptHPKE` invocations it performs (second component).
Control flow mirrors the source line by line: unmarshal the envelope,
rebuild the transcript, compare `digest(info)` with `InfoHash`, compare
`digest(pub)` with `PkRHash`, decrypt, unmarshal the plaintext into the
`identity` wrapper, return `(&topics.Identity, info, nil)`. -/
def ParseDeviceResponse (P : Primitives) (data : Bytes)
    (merchantID temaID : Bytes) (privateKey : PrivateKey)
    (nonceByte : Bytes) : ParseResult × List DecryptCall :=
  match P.cborDecodeEnvelope data with
  | none => (⟨none, none, some .unmarshalEnvelope⟩, [])
  | some claims =>
    let info := generateAppleSessionTranscript merchantID temaID nonceByte
        (P.digest privateKey.publicKeyBytes)
    if P.digest info ≠ claims.params.infoHash then
      (⟨none, none, some .infoHashMismatch⟩, [])
    else if P.digest privateKey.publicKeyBytes ≠ claims.params.pkRHash then
      (⟨none, none, some .pkRHashMismatch⟩, [])
    else
      let callRec : DecryptCall := ⟨claims.data, claims.params.pkEM, info, privateKey⟩
      match P.decryptHPKE claims.data claims.params.pkEM info privateKey with
      | none => (⟨none, none, some .decryptHPKE⟩, [callRec])
      | some plaintext =>
        match P.cborDecodeTopics plaintext with
        | none => (⟨none, none, some .unmarshalPlaintext⟩, [callRec])
        | some topics => (⟨some topics.identity, some info, none⟩, [callRec])

/-! ## Case lemmas for `ParseDeviceResponse` (shared helpers) -/

theorem parse_decode_none (P : Primitives) (data merchantID temaID nonceByte : Bytes)
    (key : PrivateKey) (hdec : P.cborDecodeEnvelope data = none) :
    ParseDeviceResponse P data merchantID temaID key nonceByte =
      (⟨none, none, some .unmarshalEnvelope⟩, []) := by
  unfold ParseDeviceResponse
  rw [hdec]

theorem parse_info_mismatch (P : Primitives) (data merchantID temaID nonceByte : Bytes)
    (key : PrivateKey) (env : HPKEEnvelope)
    (hdec : P.cborDecodeEnvelope data = some env)
    (hinfo : P.digest (generateAppleSessionTranscript merchantID temaID nonceByte
        (P.digest key.publicKeyBytes)) ≠ env.params.infoHash) :
    ParseDeviceResponse P data merchantID temaID key nonceByte =
      (⟨none, none, some .infoHashMismatch⟩, []) := by
  unfold ParseDeviceResponse
  rw [hdec]
  simp only [if_pos hinfo]

theorem parse_pkr_mismatch (P : Primitives) (data merchantID temaID nonceByte : Bytes)
    (key : PrivateKey) (env : HPKEEnvelope)
    (hdec : P.cborDecodeEnvelope data = some env)
    (hinfo : P.digest (generateAppleSessionTranscript merchantID temaID nonceByte
        (P.digest key.publicKeyBytes)) = env.params.infoHash)
    (hpkr : P.digest key.publicKeyBytes ≠ env.params.pkRHash) :
    ParseDeviceResponse P data merchantID temaID key nonceByte =
      (⟨none, none, some .pkRHashMismatch⟩, []) := by
  unfold ParseDeviceResponse
  rw [hdec]
  simp only [if_neg (not_not_intro hinfo), if_pos hpkr]

theorem parse_decrypt_none (P : Primitives) (data merchantID temaID nonceByte : Bytes)
    (key : PrivateKey) (env : HPKEEnvelope)
    (hdec : P.cborDecodeEnvelope data = some env)
    (hinfo : P.digest (generateAppleSessionTranscript merchantID temaID nonceByte
        (P.digest key.publicKeyBytes)) = env.params.infoHash)
    (hpkr : P.digest key.publicKeyBytes = env.params.pkRHash)
    (hD : P.decryptHPKE env.data env.params.pkEM
        (generateAppleSessionTranscript merchantID temaID nonceByte
          (P.digest key.publicKeyBytes)) key = none) :
    ParseDeviceResponse P data merchantID temaID key nonceByte =
      (⟨none, none, some .decryptHPKE⟩,
       [⟨env.data, env.params.pkEM,
         generateAppleSessionTranscript merchantID temaID nonceByte
           (P.digest key.publicKeyBytes), key⟩]) := by
  unfold ParseDeviceResponse
  rw [hdec]
  simp only [if_neg (not_not_intro hinfo), if_neg (not_not_intro hpkr)]
  rw [hD]

theorem parse_topics_none (P : Primitives) (data merchantID temaID nonceByte : Bytes)
    (key : PrivateKey) (env : HPKEEnvelope) (plaintext : Bytes)
    (hdec : P.cborDecodeEnvelope data = some env)
    (hinfo : P.digest (generateAppleSessionTranscript merchantID temaID nonceByte
        (P.digest key.publicKeyBytes)) = env.params.infoHash)
    (hpkr : P.digest key.publicKeyBytes = env.params.pkRHash)
    (hD : P.decryptHPKE env.data env.params.pkEM
        (generateAppleSessionTranscript merchantID temaID nonceByte
          (P.digest key.publicKeyBytes)) key = some plaintext)
    (hT : P.cborDecodeTopics plaintext = none) :
    ParseDeviceResponse P data merchantID temaID key nonceByte =
      (⟨none, none, some .unmarshalPlaintext⟩,
       [⟨env.data, env.params.pkEM,
         generateAppleSessionTranscript merchantID temaID nonceByte
           (P.digest key.publicKeyBytes), key⟩]) := by
  unfold ParseDeviceResponse
  rw [hdec]
  simp only [if_neg (not_not_intro hinfo), if_neg (not_not_intro hpkr)]
  simp only [hD, hT]

theorem parse_success (P : Primitives) (data merchantID temaID nonceByte : Bytes)
    (key : PrivateKey) (env : HPKEEnvelope) (plaintext : Bytes) (topics : Topics)
    (hdec : P.cborDecodeEnvelope data = some env)
    (hinfo : P.digest (generateAppleSessionTranscript merchantID temaID nonceByte
        (P.digest key.publicKeyBytes)) = env.params.infoHash)
    (hpkr : P.digest key.publicKeyBytes = env.params.pkRHash)
    (hD : P.decryptHPKE env.data env.params.pkEM
        (generateAppleSessionTranscript merchantID temaID nonceByte
          (P.digest key.publicKeyBytes)) key = some plaintext)
    (hT : P.cborDecodeTopics plaintext = some topics) :
    ParseDeviceResponse P data merchantID temaID key nonceByte =
      (⟨some topics.identity,
        some (generateAppleSessionTranscript merchantID temaID nonceByte
          (P.digest key.publicKeyBytes)), none⟩,
       [⟨env.data, env.params.pkEM,
         generateAppleSessionTranscript merchantID temaID nonceByte
           (P.digest key.publicKeyBytes), key⟩]) := by
  unfold ParseDeviceResponse
  rw [hdec]
  simp only [if_neg (not_not_intro hinfo), if_neg (not_not_intro hpkr)]
  simp only [hD, hT]

theorem parse_result_shape (P : Primitives) (data merchantID temaID nonceByte : Bytes)
    (key : PrivateKey) :
    (∃ e, (ParseDeviceResponse P data merchantID temaID key nonceByte).1 =
        ⟨none, none, some e⟩) ∨
    (∃ dr info, (ParseDeviceResponse P data merchantID temaID key nonceByte).1 =
        ⟨some dr, some info, none⟩) := by
  rcases hdec : P.cborDecodeEnvelope data with _ | env
  · rw [parse_decode_none P data merchantID temaID nonceByte key hdec]
    exact .inl ⟨_, rfl⟩
  · by_cases hinfo : P.digest (generateAppleSessionTranscript merchantID temaID nonceByte
        (P.digest key.publicKeyBytes)) = env.params.infoHash
    · by_cases hpkr : P.digest key.publicKeyBytes = env.params.pkRHash
      · rcases hD : P.decryptHPKE env.data env.params.pkEM
            (generateAppleSessionTranscript merchantID temaID nonceByte
              (P.digest key.publicKeyBytes)) key with _ | plaintext
        · rw [parse_decrypt_none P data merchantID temaID nonceByte key env hdec hinfo hpkr hD]
          exact .inl ⟨_, rfl⟩
        · rcases hT : P.cborDecodeTopics plaintext with _ | topics
          · rw [parse_topics_none P data merchantID temaID nonceByte key env plaintext hdec hinfo hpkr hD hT]
            exact .inl ⟨_, rfl⟩
          · rw [parse_success P data merchantID temaID nonceByte key env plaintext topics hdec hinfo hpkr hD hT]
            exact .inr ⟨_, _, rfl⟩
      · rw [parse_pkr_mismatch P data merchantID temaID nonceByte key env hdec hinfo hpkr]
        exact .inl ⟨_, rfl⟩
    · rw [parse_info_mismatch P data merchantID temaID nonceByte key env hdec hinfo]
      exact .inl ⟨_, rfl⟩

/-! ## Reference fixtures (`src/unnamed/part_000`) -/

/-- Reference merchant identifier fixture (`exchange_protocol` tests). -/
def fixtureMerchantID : String := "PassKit_Identity_Test_Merchant_ID"

/-- Reference team identifier fixture. -/
def fixtureTeamID : String := "PassKit_Identity_Test_Team_ID"

/-- The fixed 64-byte reference nonce (hex 964c3e56...672a25). -/
def fixtureNonce : Bytes :=
  [150, 76, 62, 86, 160, 96, 97, 250, 33, 63, 206, 43, 167, 50, 23, 166,
   211, 89, 194, 230, 93, 68, 236, 107, 91, 148, 249, 197, 126, 238, 179,
   192, 69, 144, 99, 68, 199, 3, 46, 38, 9, 235, 96, 83, 60, 53, 169, 138,
   117, 208, 210, 68, 78, 249, 5, 124, 85, 203, 178, 208, 93, 103, 42, 37]

/-- The reference digest of the verifier public key (hex b2c00f06...818c). -/
def fixtureRequesterKeyDigest : Bytes :=
  [178, 192, 15, 6, 178, 223, 100, 86, 145, 23, 79, 19, 49, 173, 227, 81,
   65, 241, 126, 25, 179, 2, 29, 7, 86, 11, 74, 113, 252, 97, 129, 140]

/-- The fixed reference session transcript (hex 83f6f685...818c). -/
def fixtureTranscript : Bytes :=
  [131, 246, 246, 133, 120, 28, 65, 112, 112, 108, 101, 73, 100, 101, 110,
   116, 105, 116, 121, 80, 114, 101, 115, 101, 110, 116, 109, 101, 110,
   116, 95, 49, 46, 48, 88, 64, 150, 76, 62, 86, 160, 96, 97, 250, 33, 63,
   206, 43, 167, 50, 23, 166, 211, 89, 194, 230, 93, 68, 236, 107, 91,
   148, 249, 197, 126, 238, 179, 192, 69, 144, 99, 68, 199, 3, 46, 38, 9,
   235, 96, 83, 60, 53, 169, 138, 117, 208, 210, 68, 78, 249, 5, 124, 85,
   203, 178, 208, 93, 103, 42, 37, 120, 33, 80, 97, 115, 115, 75, 105,
   116, 95, 73, 100, 101, 110, 116, 105, 116, 121, 95, 84, 101, 115, 116,
   95, 77, 101, 114, 99, 104, 97, 110, 116, 95, 73, 68, 120, 29, 80, 97,
   115, 115, 75, 105, 116, 95, 73, 100, 101, 110, 116, 105, 116, 121, 95,
   84, 101, 115, 116, 95, 84, 101, 97, 109, 95, 73, 68, 88, 32, 178, 192,
   15, 6, 178, 223, 100, 86, 145, 23, 79, 19, 49, 173, 227, 81, 65, 241,
   126, 25, 179, 2, 29, 7, 86, 11, 74, 113, 252, 97, 129, 140]

/-- The fixed reference infoHash (hex 59a47fc9...1d96, `infoHash` in
`src/unnamed/part_000`). -/
def fixtureInfoHash : Bytes :=
  [89, 164, 127, 201, 250, 36, 2, 207, 239, 165, 232, 137, 24, 61, 66, 34,
   203, 21, 187, 16, 128, 126, 83, 217, 11, 78, 239, 94, 185, 255, 29, 150]

/-! ## Further shared lemmas -/

theorem parse_err_after_checks (P : Primitives) (data merchantID temaID nonceByte : Bytes)
    (key : PrivateKey) (env : HPKEEnvelope)
    (hdec : P.cborDecodeEnvelope data = some env)
    (hinfo : P.digest (generateAppleSessionTranscript merchantID temaID nonceByte
        (P.digest key.publicKeyBytes)) = env.params.infoHash)
    (hpkr : P.digest key.publicKeyBytes = env.params.pkRHash) :
    (ParseDeviceResponse P data merchantID temaID key nonceByte).1.err = some .decryptHPKE ∨
    (ParseDeviceResponse P data merchantID temaID key nonceByte).1.err = some .unmarshalPlaintext ∨
    (ParseDeviceResponse P data merchantID temaID key nonceByte).1.err = none := by
  rcases hD : P.decryptHPKE env.data env.params.pkEM
      (generateAppleSessionTranscript merchantID temaID nonceByte
        (P.digest key.publicKeyBytes)) key with _ | pt
  · rw [parse_decrypt_none P data merchantID temaID nonceByte key env hdec hinfo hpkr hD]
    exact .inl rfl
  · rcases hT : P.cborDecodeTopics pt with _ | tp
    · rw [parse_topics_none P data merchantID temaID nonceByte key env pt hdec hinfo hpkr hD hT]
      exact .inr (.inl rfl)
    · rw [parse_success P data merchantID temaID nonceByte key env pt tp hdec hinfo hpkr hD hT]
      exact .inr (.inr rfl)

/-! ## The claims -/

/-- C1: for every well-formed envelope (step-1 decode succeeds), parse
fails with a BindingError exactly when the digest of the rebuilt
transcript differs byte-for-byte from `params.infoHash` or the digest of
the verifier public-key encoding differs byte-for-byte from
`params.pkRHash`; when both digests match, neither binding check
produces an error. -/
theorem claim1_binding_error_iff (P : Primitives) (data merchantID temaID nonceByte : Bytes)
    (key : PrivateKey) (env : HPKEEnvelope)
    (hdec : P.cborDecodeEnvelope data = some env) :
    (∃ e, (ParseDeviceResponse P data merchantID temaID key nonceByte).1.err = some e ∧
        errClass e = ErrClass.bindingError) ↔
      (P.digest (generateAppleSessionTranscript merchantID temaID nonceByte
          (P.digest key.publicKeyBytes)) ≠ env.params.infoHash ∨
       P.digest key.publicKeyBytes ≠ env.params.pkRHash) := by
  constructor
  · rintro ⟨e, he, hcls⟩
    by_contra hnot
    push_neg at hnot
    obtain ⟨hinfo, hpkr⟩ := hnot
    rcases parse_err_after_checks P data merchantID temaID nonceByte key env hdec hinfo hpkr
      with h | h | h
    · rw [h] at he
      injection he with he'
      rw [← he'] at hcls
      exact absurd hcls (by decide)
    · rw [h] at he
      injection he with he'
      rw [← he'] at hcls
      exact absurd hcls (by decide)
    · rw [h] at he
      exact Option.noConfusion he
  · intro hbad
    by_cases hinfo : P.digest (generateAppleSessionTranscript merchantID temaID nonceByte
        (P.digest key.publicKeyBytes)) = env.params.infoHash
    · have hpkr : P.digest key.publicKeyBytes ≠ env.params.pkRHash := by
        rcases hbad with h | h
        · exact absurd hinfo h
        · exact h
      rw [parse_pkr_mismatch P data merchantID temaID nonceByte key env hdec hinfo hpkr]
      exact ⟨.pkRHashMismatch, rfl, rfl⟩
    · rw [parse_info_mismatch P data merchantID temaID nonceByte key env hdec hinfo]
      exact ⟨.infoHashMismatch, rfl, rfl⟩

/-- C2: when either commitment check fails, parse returns a binding
error and the decrypt primitive is never invoked (the instrumented call
trace is empty). -/
theorem claim2_no_decrypt_on_binding_mismatch (P : Primitives)
    (data merchantID temaID nonceByte : Bytes) (key : PrivateKey) (env : HPKEEnvelope)
    (hdec : P.cborDecodeEnvelope data = some env)
    (hbad : P.digest (generateAppleSessionTranscript merchantID temaID nonceByte
          (P.digest key.publicKeyBytes)) ≠ env.params.infoHash ∨
        P.digest key.publicKeyBytes ≠ env.params.pkRHash) :
    (∃ e, (ParseDeviceResponse P data merchantID temaID key nonceByte).1.err = some e ∧
        errClass e = ErrClass.bindingError) ∧
    (ParseDeviceResponse P data merchantID temaID key nonceByte).2 = [] := by
  by_cases hinfo : P.digest (generateAppleSessionTranscript merchantID temaID nonceByte
      (P.digest key.publicKeyBytes)) = env.params.infoHash
  · have hpkr : P.digest key.publicKeyBytes ≠ env.params.pkRHash := by
      rcases hbad with h | h
      · exact absurd hinfo h
      · exact h
    rw [parse_pkr_mismatch P data merchantID temaID nonceByte key env hdec hinfo hpkr]
    exact ⟨⟨.pkRHashMismatch, rfl, rfl⟩, rfl⟩
  · rw [parse_info_mismatch P data merchantID temaID nonceByte key env hdec hinfo]
    exact ⟨⟨.infoHashMismatch, rfl, rfl⟩, rfl⟩

/-- C3: for all inputs, `generateAppleSessionTranscript` returns exactly
the canonical CBOR encoding of the 3-slot array
`[null, null, ["AppleIdentityPresentment_1.0", nonce, merchantId,
teamId, requesterKeyDigest]]`, with explicit null markers in the two
absent slots and the handover fields in exactly this order. -/
theorem claim3_transcript_is_canonical_encoding
    (merchantId teamId nonce requesterKeyDigest : Bytes) :
    generateAppleSessionTranscript merchantId teamId nonce requesterKeyDigest =
      specTranscriptBytes merchantId teamId nonce requesterKeyDigest := by
  simp [generateAppleSessionTranscript, specTranscriptBytes, cborEncode, cborEncodeList,
    APPLE_HANDOVER_V1, List.append_assoc]

/-- C4: for every envelope that passes both binding checks, parse
invokes the decrypt primitive exactly once, with ciphertext
`envelope.data`, sender ephemeral key `params.pkEM`, associated data
the freshly rebuilt transcript, and the verifier private key; a decrypt
failure propagates as the decrypt error. -/
theorem claim4_decrypt_called_once_with_exact_arguments (P : Primitives)
    (data merchantID temaID nonceByte : Bytes) (key : PrivateKey) (env : HPKEEnvelope)
    (hdec : P.cborDecodeEnvelope data = some env)
    (hinfo : P.digest (generateAppleSessionTranscript merchantID temaID nonceByte
        (P.digest key.publicKeyBytes)) = env.params.infoHash)
    (hpkr : P.digest key.publicKeyBytes = env.params.pkRHash) :
    (ParseDeviceResponse P data merchantID temaID key nonceByte).2 =
      [⟨env.data, env.params.pkEM,
        generateAppleSessionTranscript merchantID temaID nonceByte
          (P.digest key.publicKeyBytes), key⟩] ∧
    (P.decryptHPKE env.data env.params.pkEM
        (generateAppleSessionTranscript merchantID temaID nonceByte
          (P.digest key.publicKeyBytes)) key = none →
      (ParseDeviceResponse P data merchantID temaID key nonceByte).1.err =
        some .decryptHPKE) := by
  constructor
  · rcases hD : P.decryptHPKE env.data env.params.pkEM
        (generateAppleSessionTranscript merchantID temaID nonceByte
          (P.digest key.publicKeyBytes)) key with _ | pt
    · rw [parse_decrypt_none P data merchantID temaID nonceByte key env hdec hinfo hpkr hD]
    · rcases hT : P.cborDecodeTopics pt with _ | tp
      · rw [parse_topics_none P data merchantID temaID nonceByte key env pt hdec hinfo hpkr hD hT]
      · rw [parse_success P data merchantID temaID nonceByte key env pt tp hdec hinfo hpkr hD hT]
  · intro hD
    rw [parse_decrypt_none P data merchantID temaID nonceByte key env hdec hinfo hpkr hD]

/-- C5: when decode, both binding checks, decrypt and the plaintext
decode all succeed, parse returns the claims value extracted from the
single `identity` field of the decoded plaintext wrapper together with
the rebuilt transcript bytes, and these are the same bytes passed as
associated data to the one decrypt invocation. -/
theorem claim5_success_returns_identity_and_transcript (P : Primitives)
    (data merchantID temaID nonceByte : Bytes) (key : PrivateKey) (env : HPKEEnvelope)
    (plaintext : Bytes) (topics : Topics)
    (hdec : P.cborDecodeEnvelope data = some env)
    (hinfo : P.digest (generateAppleSessionTranscript merchantID temaID nonceByte
        (P.digest key.publicKeyBytes)) = env.params.infoHash)
    (hpkr : P.digest key.publicKeyBytes = env.params.pkRHash)
    (hD : P.decryptHPKE env.data env.params.pkEM
        (generateAppleSessionTranscript merchantID temaID nonceByte
          (P.digest key.publicKeyBytes)) key = some plaintext)
    (hT : P.cborDecodeTopics plaintext = some topics) :
    (ParseDeviceResponse P data merchantID temaID key nonceByte).1 =
      ⟨some topics.identity,
        some (generateAppleSessionTranscript merchantID temaID nonceByte
          (P.digest key.publicKeyBytes)), none⟩ ∧
    (ParseDeviceResponse P data merchantID temaID key nonceByte).2 =
      [⟨env.data, env.params.pkEM,
        generateAppleSessionTranscript merchantID temaID nonceByte
          (P.digest key.publicKeyBytes), key⟩] := by
  rw [parse_success P data merchantID temaID nonceByte key env plaintext topics
    hdec hinfo hpkr hD hT]
  exact ⟨rfl, rfl⟩

set_option maxRecDepth 10000

/-- C6: on the reference fixtures (merchantId
"PassKit_Identity_Test_Merchant_ID", teamId
"PassKit_Identity_Test_Team_ID", the fixed 64-byte nonce and the
reference public-key digest), the transcript builder returns exactly the
fixed reference transcript bytes, and the SHA-256 digest of those bytes
is the fixed reference infoHash. -/
theorem claim6_reference_fixture :
    generateAppleSessionTranscript (strBytes fixtureMerchantID) (strBytes fixtureTeamID)
        fixtureNonce fixtureRequesterKeyDigest = fixtureTranscript ∧
    sha256 fixtureTranscript = fixtureInfoHash := by
  constructor
  · decide
  · decide

/-- C7: the transcript builder and parse are deterministic; byte-equal
inputs (with the same pure primitive bundle) give identical outputs. -/
theorem claim7_deterministic (P : Primitives)
    (m t n r d m2 t2 n2 r2 d2 : Bytes) (k k2 : PrivateKey)
    (hm : m = m2) (ht : t = t2) (hn : n = n2) (hr : r = r2)
    (hd : d = d2) (hk : k = k2) :
    generateAppleSessionTranscript m t n r = generateAppleSessionTranscript m2 t2 n2 r2 ∧
    ParseDeviceResponse P d m t k n = ParseDeviceResponse P d2 m2 t2 k2 n2 := by
  subst hm ht hn hr hd hk
  exact ⟨rfl, rfl⟩

/-- C8: every run either succeeds or surfaces a typed error; success
happens exactly when envelope decode, both binding checks, decrypt and
plaintext decode all succeed (no failure is silently swallowed), and
the error classes of the return sites follow the spec taxonomy, with
binding errors distinguishable from decode and decrypt errors. -/
theorem claim8_error_taxonomy (P : Primitives) (data merchantID temaID nonceByte : Bytes)
    (key : PrivateKey) :
    ((ParseDeviceResponse P data merchantID temaID key nonceByte).1.err = none ↔
      ∃ env plaintext topics,
        P.cborDecodeEnvelope data = some env ∧
        P.digest (generateAppleSessionTranscript merchantID temaID nonceByte
          (P.digest key.publicKeyBytes)) = env.params.infoHash ∧
        P.digest key.publicKeyBytes = env.params.pkRHash ∧
        P.decryptHPKE env.data env.params.pkEM
          (generateAppleSessionTranscript merchantID temaID nonceByte
            (P.digest key.publicKeyBytes)) key = some plaintext ∧
        P.cborDecodeTopics plaintext = some topics) ∧
    errClass .unmarshalEnvelope = ErrClass.decodeError ∧
    errClass .unmarshalPlaintext = ErrClass.decodeError ∧
    errClass .infoHashMismatch = ErrClass.bindingError ∧
    errClass .pkRHashMismatch = ErrClass.bindingError ∧
    errClass .decryptHPKE = ErrClass.decryptError ∧
    ErrClass.bindingError ≠ ErrClass.decryptError ∧
    ErrClass.bindingError ≠ ErrClass.decodeError ∧
    ErrClass.decodeError ≠ ErrClass.decryptError := by
  refine ⟨?_, rfl, rfl, rfl, rfl, rfl, by decide, by decide, by decide⟩
  constructor
  · intro hnone
    rcases hdec : P.cborDecodeEnvelope data with _ | env
    · rw [parse_decode_none P data merchantID temaID nonceByte key hdec] at hnone
      exact Option.noConfusion hnone
    · by_cases hinfo : P.digest (generateAppleSessionTranscript merchantID temaID nonceByte
          (P.digest key.publicKeyBytes)) = env.params.infoHash
      · by_cases hpkr : P.digest key.publicKeyBytes = env.params.pkRHash
        · rcases hD : P.decryptHPKE env.data env.params.pkEM
              (generateAppleSessionTranscript merchantID temaID nonceByte
                (P.digest key.publicKeyBytes)) key with _ | pt
          · rw [parse_decrypt_none P data merchantID temaID nonceByte key env hdec hinfo
              hpkr hD] at hnone
            exact Option.noConfusion hnone
          · rcases hT : P.cborDecodeTopics pt with _ | tp
            · rw [parse_topics_none P data merchantID temaID nonceByte key env pt hdec hinfo
                hpkr hD hT] at hnone
              exact Option.noConfusion hnone
            · exact ⟨env, pt, tp, rfl, hinfo, hpkr, hD, hT⟩
        · rw [parse_pkr_mismatch P data merchantID temaID nonceByte key env hdec hinfo
            hpkr] at hnone
          exact Option.noConfusion hnone
      · rw [parse_info_mismatch P data merchantID temaID nonceByte key env hdec
          hinfo] at hnone
        exact Option.noConfusion hnone
  · rintro ⟨env, pt, tp, hdec, hinfo, hpkr, hD, hT⟩
    rw [parse_success P data merchantID temaID nonceByte key env pt tp hdec hinfo hpkr hD hT]

/-- C9: error atomicity; whenever parse returns an error, both the
claims result and the transcript result are nil. -/
theorem claim9_error_atomicity (P : Primitives) (data merchantID temaID nonceByte : Bytes)
    (key : PrivateKey) (e : ParseError)
    (herr : (ParseDeviceResponse P data merchantID temaID key nonceByte).1.err = some e) :
    (ParseDeviceResponse P data merchantID temaID key nonceByte).1.response = none ∧
    (ParseDeviceResponse P data merchantID temaID key nonceByte).1.transcript = none := by
  rcases parse_result_shape P data merchantID temaID nonceByte key with ⟨e2, h⟩ | ⟨dr, info, h⟩
  · rw [h]
    exact ⟨rfl, rfl⟩
  · rw [h] at herr
    exact Option.noConfusion herr

/-- C10: parse never inspects the envelope's `algorithm` identifier or
`params.mode`; two well-formed envelopes agreeing on everything except
those two fields produce identical results. -/
theorem claim10_ignores_algorithm_and_mode (P : Primitives)
    (d1 d2 merchantID temaID nonceByte : Bytes) (key : PrivateKey) (e1 e2 : HPKEEnvelope)
    (h1 : P.cborDecodeEnvelope d1 = some e1) (h2 : P.cborDecodeEnvelope d2 = some e2)
    (hp : e1.params.pkEM = e2.params.pkEM) (hr : e1.params.pkRHash = e2.params.pkRHash)
    (hi : e1.params.infoHash = e2.params.infoHash) (hd : e1.data = e2.data) :
    ParseDeviceResponse P d1 merchantID temaID key nonceByte =
      ParseDeviceResponse P d2 merchantID temaID key nonceByte := by
  unfold ParseDeviceResponse
  simp only [h1, h2, hp, hr, hi, hd]

/-! ## Concrete instantiations used by the witnesses -/

/-- A tiny pure digest for concrete instantiations of the abstract
digest parameter. -/
def wDigest (b : Bytes) : Bytes := [b.length % 256]

def wKey : PrivateKey := ⟨[1, 2], []⟩

def wInfo : Bytes := generateAppleSessionTranscript [] [] [] (wDigest wKey.publicKeyBytes)

/-- An envelope whose commitments match `wDigest`/`wKey` on empty
identifiers and nonce. -/
def wEnvGood : HPKEEnvelope :=
  ⟨"HPKE", ⟨0, [9], wDigest wKey.publicKeyBytes, wDigest wInfo⟩, [7]⟩

/-- Same as `wEnvGood` except for `algorithm` and `mode`. -/
def wEnvGood2 : HPKEEnvelope :=
  ⟨"OTHER", ⟨5, [9], wDigest wKey.publicKeyBytes, wDigest wInfo⟩, [7]⟩

/-- An envelope whose `infoHash` commitment does not match. -/
def wEnvBadInfo : HPKEEnvelope :=
  ⟨"HPKE", ⟨0, [9], wDigest wKey.publicKeyBytes, [255]⟩, [7]⟩

/-- Primitive bundle decoding every input to the given envelope, with
echo decryption and a trivial plaintext decoder. -/
def mkPrims (env : HPKEEnvelope) : Primitives :=
  ⟨fun _ => some env, wDigest, fun ct _ _ _ => some ct, fun b => some ⟨⟨b⟩⟩⟩

/-- Primitive bundle whose envelope decoding depends on the input
bytes, used for the two-envelope claim. -/
def wPrims10 : Primitives :=
  ⟨fun d => if d = [0] then some wEnvGood else some wEnvGood2,
   wDigest, fun ct _ _ _ => some ct, fun b => some ⟨⟨b⟩⟩⟩

/-! ## Witnesses -/

/-- Witness for C1 at a concrete matching envelope. -/
theorem claim1_witness :
    (∃ e, (ParseDeviceResponse (mkPrims wEnvGood) [] [] [] wKey []).1.err = some e ∧
        errClass e = ErrClass.bindingError) ↔
      ((mkPrims wEnvGood).digest (generateAppleSessionTranscript [] [] []
          ((mkPrims wEnvGood).digest wKey.publicKeyBytes)) ≠ wEnvGood.params.infoHash ∨
       (mkPrims wEnvGood).digest wKey.publicKeyBytes ≠ wEnvGood.params.pkRHash) :=
  claim1_binding_error_iff (mkPrims wEnvGood) [] [] [] [] wKey wEnvGood rfl

/-- Witness for C2 at a concrete envelope with a wrong `infoHash`. -/
theorem claim2_witness :
    (∃ e, (ParseDeviceResponse (mkPrims wEnvBadInfo) [] [] [] wKey []).1.err = some e ∧
        errClass e = ErrClass.bindingError) ∧
    (ParseDeviceResponse (mkPrims wEnvBadInfo) [] [] [] wKey []).2 = [] :=
  claim2_no_decrypt_on_binding_mismatch (mkPrims wEnvBadInfo) [] [] [] [] wKey wEnvBadInfo
    rfl (.inl (by decide))

/-- Witness for C4 at a concrete envelope passing both checks. -/
theorem claim4_witness :
    (ParseDeviceResponse (mkPrims wEnvGood) [] [] [] wKey []).2 =
      [⟨wEnvGood.data, wEnvGood.params.pkEM,
        generateAppleSessionTranscript [] [] []
          ((mkPrims wEnvGood).digest wKey.publicKeyBytes), wKey⟩] ∧
    ((mkPrims wEnvGood).decryptHPKE wEnvGood.data wEnvGood.params.pkEM
        (generateAppleSessionTranscript [] [] []
          ((mkPrims wEnvGood).digest wKey.publicKeyBytes)) wKey = none →
      (ParseDeviceResponse (mkPrims wEnvGood) [] [] [] wKey []).1.err =
        some .decryptHPKE) :=
  claim4_decrypt_called_once_with_exact_arguments (mkPrims wEnvGood) [] [] [] [] wKey
    wEnvGood rfl rfl rfl

/-- Witness for C5 at a concrete fully-successful run. -/
theorem claim5_witness :
    (ParseDeviceResponse (mkPrims wEnvGood) [] [] [] wKey []).1 =
      ⟨some (⟨⟨wEnvGood.data⟩⟩ : Topics).identity,
        some (generateAppleSessionTranscript [] [] []
          ((mkPrims wEnvGood).digest wKey.publicKeyBytes)), none⟩ ∧
    (ParseDeviceResponse (mkPrims wEnvGood) [] [] [] wKey []).2 =
      [⟨wEnvGood.data, wEnvGood.params.pkEM,
        generateAppleSessionTranscript [] [] []
          ((mkPrims wEnvGood).digest wKey.publicKeyBytes), wKey⟩] :=
  claim5_success_returns_identity_and_transcript (mkPrims wEnvGood) [] [] [] [] wKey
    wEnvGood wEnvGood.data ⟨⟨wEnvGood.data⟩⟩ rfl rfl rfl rfl rfl

/-- Witness for C7 at concrete equal inputs. -/
theorem claim7_witness :
    generateAppleSessionTranscript [] [] [] [] = generateAppleSessionTranscript [] [] [] [] ∧
    ParseDeviceResponse (mkPrims wEnvGood) [] [] [] wKey [] =
      ParseDeviceResponse (mkPrims wEnvGood) [] [] [] wKey [] :=
  claim7_deterministic (mkPrims wEnvGood) [] [] [] [] [] [] [] [] [] [] wKey wKey
    rfl rfl rfl rfl rfl rfl

/-- Witness for C8 at a concrete input. -/
theorem claim8_witness :
    ((ParseDeviceResponse (mkPrims wEnvGood) [] [] [] wKey []).1.err = none ↔
      ∃ env plaintext topics,
        (mkPrims wEnvGood).cborDecodeEnvelope [] = some env ∧
        (mkPrims wEnvGood).digest (generateAppleSessionTranscript [] [] []
          ((mkPrims wEnvGood).digest wKey.publicKeyBytes)) = env.params.infoHash ∧
        (mkPrims wEnvGood).digest wKey.publicKeyBytes = env.params.pkRHash ∧
        (mkPrims wEnvGood).decryptHPKE env.data env.params.pkEM
          (generateAppleSessionTranscript [] [] []
            ((mkPrims wEnvGood).digest wKey.publicKeyBytes)) wKey = some plaintext ∧
        (mkPrims wEnvGood).cborDecodeTopics plaintext = some topics) ∧
    errClass .unmarshalEnvelope = ErrClass.decodeError ∧
    errClass .unmarshalPlaintext = ErrClass.decodeError ∧
    errClass .infoHashMismatch = ErrClass.bindingError ∧
    errClass .pkRHashMismatch = ErrClass.bindingError ∧
    errClass .decryptHPKE = ErrClass.decryptError ∧
    ErrClass.bindingError ≠ ErrClass.decryptError ∧
    ErrClass.bindingError ≠ ErrClass.decodeError ∧
    ErrClass.decodeError ≠ ErrClass.decryptError :=
  claim8_error_taxonomy (mkPrims wEnvGood) [] [] [] [] wKey

/-- Witness for C9 at a concrete failing run. -/
theorem claim9_witness :
    (ParseDeviceResponse (mkPrims wEnvBadInfo) [] [] [] wKey []).1.response = none ∧
    (ParseDeviceResponse (mkPrims wEnvBadInfo) [] [] [] wKey []).1.transcript = none :=
  claim9_error_atomicity (mkPrims wEnvBadInfo) [] [] [] [] wKey .infoHashMismatch
    (by decide)

/-- Witness for C10 at two concrete envelopes differing only in
`algorithm` and `mode`. -/
theorem claim10_witness :
    ParseDeviceResponse wPrims10 [0] [] [] wKey [] =
      ParseDeviceResponse wPrims10 [1] [] [] wKey [] :=
  claim10_ignores_algorithm_and_mode wPrims10 [0] [1] [] [] [] wKey wEnvGood wEnvGood2
    (by decide) (by decide) rfl rfl rfl rfl

end AppleHpke
